import Mathlib

/-!
Verification of the deflux event-forwarding core (src/main.go).

The Go program bridges a deCONZ sensor gateway to an InfluxDB v2 backend:
it resolves a configuration from two search paths, generates a default
configuration (with network discovery and pairing) when none is found,
and otherwise runs a forwarding loop that normalizes raw sensor events
into time-series points and submits them to a batched writer.

External effects (filesystem reads, network discovery, pairing, the
gateway event stream, wall-clock time) are embedded as explicit
parameters; the definitions below mirror the control flow of main.go.
-/

namespace Deflux

/-- YmlFileName is the filename (const YmlFileName in main.go). -/
def YmlFileName : String := "deflux.yml"

/-- deconz.Config: gateway address and API key (fields Addr, APIKey). -/
structure DeconzConfig where
  Addr : String
  APIKey : String
deriving Repr, DecidableEq

/-- influxdb2ConfigProxy: backend section of the configuration
(fields URL, Org, Token, Bucket, BatchSize from main.go). -/
structure Influxdb2ConfigProxy where
  URL : String
  Org : String
  Token : String
  Bucket : String
  BatchSize : Nat
deriving Repr, DecidableEq

/-- Configuration holds data for Deconz and influxdb configuration. -/
structure Configuration where
  Deconz : DeconzConfig
  Influxdb2 : Influxdb2ConfigProxy
deriving Repr, DecidableEq

/-- One discovered gateway candidate: internal IP address and port,
as used by defaultConfiguration (fields InternalIPAddress, InternalPort). -/
structure DiscoveredGateway where
  InternalIPAddress : String
  InternalPort : Nat
deriving Repr, DecidableEq

/-- The URL built in defaultConfiguration from a discovered candidate:
url.URL with Scheme http, Host ip:port, Path /api, rendered by String(). -/
def gatewayURL (g : DiscoveredGateway) : String :=
  "http://" ++ g.InternalIPAddress ++ ":" ++ toString g.InternalPort ++ "/api"

/-- The fixed skeleton built at the top of defaultConfiguration in main.go
(placeholder gateway and backend credentials). -/
def defaultConfigSkeleton : Configuration :=
  { Deconz := { Addr := "http://127.0.0.1:8080/", APIKey := "change me" }
    Influxdb2 := { URL := "http://127.0.0.1:8086/", Org := "change me",
                   Token := "change me", Bucket := "change me", BatchSize := 20 } }

/-- Modelled from the spec: deconz.Discover lives in the deconz package,
which is not under src/. Per the spec (section 4.1, edge case), a network
probe that finds zero candidate gateways is surfaced the same way as a
probe error: both are reported as a discovery error (no gateway found),
so a successful Discover result always carries at least one candidate.
The raw probe outcome (network error, or the list of gateways found on
the local network) is the argument. -/
def Discover (probe : Except String (List DiscoveredGateway)) :
    Except String (List DiscoveredGateway) :=
  match probe with
  | .error e => .error e
  | .ok [] => .error "no gateways discovered"
  | .ok gs => .ok gs

/-- defaultConfiguration from main.go, as a function of the result of the
deconz.Discover call. It builds the fixed skeleton; on a discovery error
it returns the skeleton unchanged; on a successful discovery it indexes
candidate 0 and splices its address into the gateway Addr. Indexing
element 0 of an empty slice panics in Go; the panic is modelled as none. -/
def defaultConfiguration (disc : Except String (List DiscoveredGateway)) :
    Option Configuration :=
  match disc with
  | .error _ => some defaultConfigSkeleton
  | .ok discovered =>
    match discovered with
    | [] => none
    | g :: _ =>
      some { defaultConfigSkeleton with
             Deconz := { defaultConfigSkeleton.Deconz with Addr := gatewayURL g } }

/-- The external calls made by outputDefaultConfiguration, as oracles:
whether url.Parse succeeds on a given address, and the Go-style result
pair of deconz.Pair at that address (returned API key value, and the
error, none meaning success). deconz.Pair itself is outside src/; only
the pair of values it returns matters to main.go. -/
structure PairEnv where
  parseOk : String → Bool
  pair : String → String × Option String

/-- outputDefaultConfiguration from main.go, as a function of the
discovery outcome and the pairing oracles, returning the configuration
that gets marshalled to YAML and printed (the proxy struct copies every
field of c verbatim, so the emitted configuration equals c). Note the
source assigns c.Deconz.APIKey = string(apikey) unconditionally after
the Pair call, outside the error check. A none result models the Go
panic propagating out of defaultConfiguration. -/
def outputDefaultConfiguration (env : PairEnv)
    (disc : Except String (List DiscoveredGateway)) : Option Configuration :=
  match defaultConfiguration disc with
  | none => none
  | some c =>
    if env.parseOk c.Deconz.Addr then
      let r := env.pair c.Deconz.Addr
      some { c with Deconz := { c.Deconz with APIKey := r.1 } }
    else
      some c

/-! Configuration resolution (readConfiguration in main.go). -/

/-- Go path.Join for the two call sites in readConfiguration: both join a
directory with the plain filename deflux.yml, where Join reduces to
inserting a separator. -/
def pathJoin (a b : String) : String := a ++ "/" ++ b

/-- The filesystem effects used by readConfiguration: the result of
os.Getwd, and the result of ioutil.ReadFile at each path. -/
structure FS where
  getwdResult : Except String String
  readFileResult : String → Except String String

/-- readConfiguration from main.go: try pwd/deflux.yml, then fall through
to /etc/deflux.yml; if both reads fail, the error wraps both causes as
fmt.Errorf with a newline before each. Alongside the returned value, the
list of paths at which ReadFile was invoked is recorded, in call order. -/
def readConfiguration (fs : FS) : Except String String × List String :=
  match fs.getwdResult with
  | .error e => (.error ("unable to get current work directory: " ++ e), [])
  | .ok pwd =>
    let pwdPath := pathJoin pwd YmlFileName
    match fs.readFileResult pwdPath with
    | .ok data => (.ok data, [pwdPath])
    | .error pwdErr =>
      let etcPath := pathJoin "/etc" YmlFileName
      match fs.readFileResult etcPath with
      | .ok data => (.ok data, [pwdPath, etcPath])
      | .error etcErr =>
        (.error ("\n" ++ pwdErr ++ "\n" ++ etcErr), [pwdPath, etcPath])

/-! The forwarding loop (the for/select loop in main). -/

/-- The Sensor attached to an event; only its Type tag is read by main.go
(for the measurement name). -/
structure Sensor where
  typeTag : String
deriving Repr, DecidableEq

/-- A typed field value carried in the fields map of a normalized event.
The loop never inspects these values; they flow through unchanged. -/
inductive FieldValue
  | intVal (n : Int)
  | boolVal (b : Bool)
  | strVal (s : String)
deriving Repr, DecidableEq

deriving instance DecidableEq for Except

/-- A raw sensor event as seen by the loop: its Sensor (for the type
tag), the result of its Timeseries normalization method (defined in the
deconz package, outside src/, so embedded as the pair of values it
returns), and the occurrence time the event itself carries (modelled
from the spec, section 9: the loop deliberately does not use it). -/
structure SensorEvent where
  Sensor : Sensor
  Timeseries : Except String (List (String × String) × List (String × FieldValue))
  eventTime : Nat
deriving Repr, DecidableEq

/-- A time-series point as built by influxdb2.NewPoint in main.go. -/
structure Point where
  measurement : String
  tags : List (String × String)
  fields : List (String × FieldValue)
  time : Nat
deriving Repr, DecidableEq

/-- One iteration of the forwarding loop body on an event received at
wall-clock time now: on a Timeseries error, no point and a log line; on
success, the point with measurement deflux_ prefixed to the sensor type,
the returned tags and fields, and timestamp now. -/
def processEvent (now : Nat) (e : SensorEvent) : Option Point × Option String :=
  match e.Timeseries with
  | .error msg => (none, some ("not adding event to influx batch: " ++ msg))
  | .ok (tags, fields) =>
    (some { measurement := "deflux_" ++ e.Sensor.typeTag,
            tags := tags, fields := fields, time := now }, none)

/-- The forwarding loop run over a finite prefix of the event stream,
each event paired with the wall-clock time at which it is processed;
returns the points submitted to the batched writer and the log lines, in
order. The Go loop has no termination condition; this folds its body
over any finite prefix. -/
def forwardLoop : List (SensorEvent × Nat) → List Point × List String
  | [] => ([], [])
  | (e, t) :: rest =>
    let r := processEvent t e
    let tail := forwardLoop rest
    (r.1.toList ++ tail.1, r.2.toList ++ tail.2)

/-! Startup (main and sensorEventChan). -/

/-- The external calls made by sensorEventChan: the result of
d.EventReader() (the reader handle is opaque here) and the error from
reader.Dial(), none meaning success. -/
structure StreamEnv where
  eventReader : Except String Unit
  dial : Option String

/-- sensorEventChan from main.go: propagate an EventReader error, then a
Dial error; otherwise the sensor event channel is created and the reader
started (the channel handle is opaque here). -/
def sensorEventChan (env : StreamEnv) : Except String Unit :=
  match env.eventReader with
  | .error e => .error e
  | .ok _ =>
    match env.dial with
    | some e => .error e
    | none => .ok ()

/-- How a run of main terminates (or enters steady state): printing the
generated default configuration and returning, panicking, or entering
the forwarding loop (carrying the points submitted for a finite prefix
of the stream). -/
inductive ProcessOutcome
  | printedDefaultConfig (c : Configuration)
  | panicked (msg : String)
  | steadyState (submitted : List Point)
deriving Repr

/-- Everything external to one run of main. -/
structure Env where
  loadResult : Except String Configuration
  pairEnv : PairEnv
  disc : Except String (List DiscoveredGateway)
  stream : StreamEnv
  events : List (SensorEvent × Nat)

/-- main from main.go: on a configuration load error, generate and print
the default configuration and return; otherwise open the event stream,
panicking on error, and enter the forwarding loop. -/
def mainRun (env : Env) : ProcessOutcome :=
  match env.loadResult with
  | .error _ =>
    match outputDefaultConfiguration env.pairEnv env.disc with
    | none => .panicked "runtime error: index out of range"
    | some c => .printedDefaultConfig c
  | .ok _ =>
    match sensorEventChan env.stream with
    | .error e => .panicked e
    | .ok _ => .steadyState (forwardLoop env.events).1

/-! Shared helper lemmas. -/

/-- Every configuration that defaultConfiguration returns keeps the
Influxdb2 section of the skeleton. -/
theorem defaultConfiguration_preserves_influxdb2
    (disc : Except String (List DiscoveredGateway)) (c : Configuration)
    (h : defaultConfiguration disc = some c) :
    c.Influxdb2 = defaultConfigSkeleton.Influxdb2 := by
  cases disc with
  | error e =>
    simp [defaultConfiguration] at h
    simp [← h]
  | ok gs =>
    cases gs with
    | nil => simp [defaultConfiguration] at h
    | cons g rest =>
      simp [defaultConfiguration] at h
      simp [← h]

/-! Claim theorems. -/

/-- C1: during default-configuration generation, a discovery probe that
finds zero candidates is handled identically to a discovery error: the
skeleton gateway address http://127.0.0.1:8080/ is retained, no
candidate is indexed, and a complete configuration is still produced
(the result is some, never the panic value none). -/
theorem zero_candidates_handled_like_discovery_error (e : String) :
    defaultConfiguration (Discover (Except.ok ([] : List DiscoveredGateway)))
      = some defaultConfigSkeleton
    ∧ defaultConfiguration (Discover (Except.error e)) = some defaultConfigSkeleton
    ∧ defaultConfigSkeleton.Deconz.Addr = "http://127.0.0.1:8080/" :=
  ⟨rfl, rfl, rfl⟩

/-- C2 (code bug evaluation): with discovery failing, url.Parse
succeeding, and pairing failing with the Go zero-value key, the emitted
configuration carries APIKey equal to the empty string, not the
placeholder value change me: the source assigns the Pair result to
c.Deconz.APIKey unconditionally, outside the error check. -/
theorem pairing_failure_overwrites_apikey :
    (outputDefaultConfiguration
        { parseOk := fun _ => true,
          pair := fun _ => ("", some "connection refused") }
        (Except.error "discovery failed")).map (fun c => c.Deconz.APIKey)
      = some ""
    ∧ ("" : String) ≠ "change me" :=
  ⟨rfl, by decide⟩

/-- C3: an event whose Timeseries normalization fails contributes no
point to the batched writer (the submitted list is exactly that of the
remaining events), produces the diagnostic log line, and the loop
continues with the rest of the stream. -/
theorem normalization_error_never_submits (e : SensorEvent) (t : Nat)
    (msg : String) (rest : List (SensorEvent × Nat))
    (h : e.Timeseries = Except.error msg) :
    (processEvent t e).1 = none
    ∧ forwardLoop ((e, t) :: rest)
        = ((forwardLoop rest).1,
           ("not adding event to influx batch: " ++ msg) :: (forwardLoop rest).2) := by
  constructor
  · simp [processEvent, h]
  · simp [forwardLoop, processEvent, h]

/-- Witness for C3 at a concrete unrecognized-type event. -/
theorem normalization_error_never_submits_witness :
    ({ Sensor := { typeTag := "unknown" },
       Timeseries := Except.error "bad type", eventTime := 3 } : SensorEvent).Timeseries
        = Except.error "bad type"
    ∧ forwardLoop
        [({ Sensor := { typeTag := "unknown" },
            Timeseries := Except.error "bad type", eventTime := 3 }, 7)]
        = ([], ["not adding event to influx batch: bad type"]) :=
  ⟨rfl,
   ((normalization_error_never_submits
      { Sensor := { typeTag := "unknown" },
        Timeseries := Except.error "bad type", eventTime := 3 }
      7 "bad type" [] rfl).2).trans rfl⟩

/-- C4: an event whose normalization succeeds is submitted as exactly one
point whose measurement is deflux_ concatenated with the sensor type,
whose tags and fields are those returned by normalization, and whose
timestamp is the wall-clock processing time t; the point does not depend
on the occurrence time the event itself carries. -/
theorem successful_normalization_point_shape (e : SensorEvent) (t : Nat)
    (tags : List (String × String)) (fields : List (String × FieldValue))
    (rest : List (SensorEvent × Nat))
    (h : e.Timeseries = Except.ok (tags, fields)) :
    processEvent t e
      = (some { measurement := "deflux_" ++ e.Sensor.typeTag,
                tags := tags, fields := fields, time := t }, none)
    ∧ forwardLoop ((e, t) :: rest)
        = ({ measurement := "deflux_" ++ e.Sensor.typeTag,
             tags := tags, fields := fields, time := t } :: (forwardLoop rest).1,
           (forwardLoop rest).2)
    ∧ (∀ t0 : Nat, processEvent t { e with eventTime := t0 } = processEvent t e) := by
  refine ⟨?_, ?_, ?_⟩
  · simp [processEvent, h]
  · simp [forwardLoop, processEvent, h]
  · intro t0
    simp [processEvent, h]

/-- Witness for C4 at a concrete temperature event whose own occurrence
time (99) differs from the processing time (5). -/
theorem successful_normalization_point_shape_witness :
    ({ Sensor := { typeTag := "temperature" },
       Timeseries := Except.ok ([("name", "t1")], [("temperature", FieldValue.intVal 21)]),
       eventTime := 99 } : SensorEvent).Timeseries
        = Except.ok ([("name", "t1")], [("temperature", FieldValue.intVal 21)])
    ∧ processEvent 5
        { Sensor := { typeTag := "temperature" },
          Timeseries := Except.ok ([("name", "t1")], [("temperature", FieldValue.intVal 21)]),
          eventTime := 99 }
        = (some { measurement := "deflux_temperature", tags := [("name", "t1")],
                  fields := [("temperature", FieldValue.intVal 21)], time := 5 }, none) :=
  ⟨rfl,
   (successful_normalization_point_shape
      { Sensor := { typeTag := "temperature" },
        Timeseries := Except.ok ([("name", "t1")], [("temperature", FieldValue.intVal 21)]),
        eventTime := 99 }
      5 [("name", "t1")] [("temperature", FieldValue.intVal 21)] [] rfl).1⟩

/-- C5: configuration resolution tries pwd/deflux.yml before
/etc/deflux.yml. When the working-directory read succeeds, its content
is returned unchanged and the recorded read trace is exactly the single
working-directory path (the /etc fallback read never happens); when the
working-directory read fails, resolution falls through to /etc and a
successful read there is returned. -/
theorem readConfiguration_prefers_pwd (fs : FS) (pwd : String)
    (hw : fs.getwdResult = Except.ok pwd) :
    (∀ data, fs.readFileResult (pathJoin pwd YmlFileName) = Except.ok data →
        readConfiguration fs = (Except.ok data, [pathJoin pwd YmlFileName]))
    ∧ (∀ e data, fs.readFileResult (pathJoin pwd YmlFileName) = Except.error e →
        fs.readFileResult (pathJoin "/etc" YmlFileName) = Except.ok data →
        readConfiguration fs
          = (Except.ok data,
             [pathJoin pwd YmlFileName, pathJoin "/etc" YmlFileName])) := by
  constructor
  · intro data hr
    simp [readConfiguration, hw, hr]
  · intro e data h1 h2
    simp [readConfiguration, hw, h1, h2]

/-- Witness for C5: a filesystem with a readable configuration at the
working-directory path only. -/
theorem readConfiguration_prefers_pwd_witness :
    ({ getwdResult := Except.ok "/home/user",
       readFileResult := fun p =>
         if p = "/home/user/deflux.yml" then Except.ok "Deconz:"
         else Except.error "open: no such file" } : FS).getwdResult
        = Except.ok "/home/user"
    ∧ readConfiguration
        { getwdResult := Except.ok "/home/user",
          readFileResult := fun p =>
            if p = "/home/user/deflux.yml" then Except.ok "Deconz:"
            else Except.error "open: no such file" }
        = (Except.ok "Deconz:", ["/home/user/deflux.yml"]) :=
  ⟨rfl,
   (readConfiguration_prefers_pwd
      { getwdResult := Except.ok "/home/user",
        readFileResult := fun p =>
          if p = "/home/user/deflux.yml" then Except.ok "Deconz:"
          else Except.error "open: no such file" }
      "/home/user" rfl).1 "Deconz:" (by decide)⟩

/-- C6: when the working directory is known and both reads fail, the
resolution error is the concatenation of a newline, the
working-directory read error, a newline, and the /etc read error — a
message containing both underlying failure reasons. -/
theorem both_paths_fail_reports_both (fs : FS) (pwd e1 e2 : String)
    (hw : fs.getwdResult = Except.ok pwd)
    (h1 : fs.readFileResult (pathJoin pwd YmlFileName) = Except.error e1)
    (h2 : fs.readFileResult (pathJoin "/etc" YmlFileName) = Except.error e2) :
    (readConfiguration fs).1 = Except.error ("\n" ++ e1 ++ "\n" ++ e2)
    ∧ ∃ a b, "\n" ++ e1 ++ "\n" ++ e2 = a ++ e1 ++ b ++ e2 := by
  refine ⟨by simp [readConfiguration, hw, h1, h2], "\n", "\n", ?_⟩
  simp [String.append_assoc]

/-- Witness for C6: both reads fail with distinct messages and both
appear in the returned error. -/
theorem both_paths_fail_reports_both_witness :
    (readConfiguration
        { getwdResult := Except.ok "/home/user",
          readFileResult := fun _ => Except.error "permission denied" }).1
      = Except.error ("\n" ++ "permission denied" ++ "\n" ++ "permission denied") :=
  (both_paths_fail_reports_both
    { getwdResult := Except.ok "/home/user",
      readFileResult := fun _ => Except.error "permission denied" }
    "/home/user" "permission denied" "permission denied" rfl rfl rfl).1

/-- C7: on a discovery error, default-configuration generation still
returns the complete placeholder configuration — gateway address
http://127.0.0.1:8080/, backend URL http://127.0.0.1:8086/, batch size
20, every credential set to change me — and never a failure value. -/
theorem discovery_error_still_complete_config (e : String) :
    defaultConfiguration (Except.error e) = some defaultConfigSkeleton
    ∧ (defaultConfiguration (Except.error e)).isSome = true
    ∧ defaultConfigSkeleton.Deconz.Addr = "http://127.0.0.1:8080/"
    ∧ defaultConfigSkeleton.Deconz.APIKey = "change me"
    ∧ defaultConfigSkeleton.Influxdb2.URL = "http://127.0.0.1:8086/"
    ∧ defaultConfigSkeleton.Influxdb2.Org = "change me"
    ∧ defaultConfigSkeleton.Influxdb2.Token = "change me"
    ∧ defaultConfigSkeleton.Influxdb2.Bucket = "change me"
    ∧ defaultConfigSkeleton.Influxdb2.BatchSize = 20 :=
  ⟨rfl, rfl, rfl, rfl, rfl, rfl, rfl, rfl, rfl⟩

/-- C8: on a successful discovery with at least one candidate, generation
selects the candidate at index 0 — whatever follows it is ignored — and
sets the gateway address to the http URL built from that candidate with
host InternalIPAddress:InternalPort and path /api. -/
theorem discovery_selects_first_candidate (g : DiscoveredGateway)
    (rest : List DiscoveredGateway) :
    defaultConfiguration (Except.ok (g :: rest))
      = some { defaultConfigSkeleton with
               Deconz := { defaultConfigSkeleton.Deconz with Addr := gatewayURL g } }
    ∧ gatewayURL g
        = "http://" ++ g.InternalIPAddress ++ ":" ++ toString g.InternalPort ++ "/api" :=
  ⟨rfl, rfl⟩

/-- C9: when a configuration loads but opening the event stream fails —
either the EventReader call or the Dial call returns an error — the
process panics with that error at startup and never enters the
forwarding loop (no steady state, hence no submission and no retry). -/
theorem stream_open_failure_panics (env : Env) (cfg : Configuration) (m : String)
    (hload : env.loadResult = Except.ok cfg)
    (hfail : env.stream.eventReader = Except.error m
        ∨ (env.stream.eventReader = Except.ok () ∧ env.stream.dial = some m)) :
    mainRun env = ProcessOutcome.panicked m
    ∧ ∀ pts, mainRun env ≠ ProcessOutcome.steadyState pts := by
  have hs : sensorEventChan env.stream = Except.error m := by
    rcases hfail with h | ⟨h1, h2⟩
    · simp [sensorEventChan, h]
    · simp [sensorEventChan, h1, h2]
  constructor
  · simp [mainRun, hload, hs]
  · intro pts
    simp [mainRun, hload, hs]

/-- Witness for C9: a run whose Dial step fails. -/
theorem stream_open_failure_panics_witness :
    ({ loadResult := Except.ok defaultConfigSkeleton,
       pairEnv := { parseOk := fun _ => false, pair := fun _ => ("", none) },
       disc := Except.error "unused",
       stream := { eventReader := Except.ok (), dial := some "dial tcp: connection refused" },
       events := [] } : Env).loadResult = Except.ok defaultConfigSkeleton
    ∧ mainRun
        { loadResult := Except.ok defaultConfigSkeleton,
          pairEnv := { parseOk := fun _ => false, pair := fun _ => ("", none) },
          disc := Except.error "unused",
          stream := { eventReader := Except.ok (), dial := some "dial tcp: connection refused" },
          events := [] }
        = ProcessOutcome.panicked "dial tcp: connection refused" :=
  ⟨rfl,
   (stream_open_failure_panics
      { loadResult := Except.ok defaultConfigSkeleton,
        pairEnv := { parseOk := fun _ => false, pair := fun _ => ("", none) },
        disc := Except.error "unused",
        stream := { eventReader := Except.ok (), dial := some "dial tcp: connection refused" },
        events := [] }
      defaultConfigSkeleton "dial tcp: connection refused" rfl
      (Or.inr ⟨rfl, rfl⟩)).1⟩

/-- C10: whatever the discovery outcome and the pairing oracles, every
configuration that default-configuration generation emits keeps the
fixed backend placeholders: its Influxdb2 section equals that of the
skeleton (URL http://127.0.0.1:8086/, Org, Token and Bucket change me,
BatchSize 20); only the Deconz fields are ever rewritten. -/
theorem influxdb2_section_never_modified (env : PairEnv)
    (disc : Except String (List DiscoveredGateway)) (c : Configuration)
    (h : outputDefaultConfiguration env disc = some c) :
    c.Influxdb2 = defaultConfigSkeleton.Influxdb2 := by
  cases hd : defaultConfiguration disc with
  | none => simp [outputDefaultConfiguration, hd] at h
  | some c0 =>
    have hc0 := defaultConfiguration_preserves_influxdb2 disc c0 hd
    by_cases hp : env.parseOk c0.Deconz.Addr
    · simp [outputDefaultConfiguration, hd, hp] at h
      simp [← h, hc0]
    · simp [outputDefaultConfiguration, hd, hp] at h
      simp [← h, hc0]

/-- Witness for C10: generation with failed discovery and successful
pairing leaves the backend section at the skeleton values. -/
theorem influxdb2_section_never_modified_witness :
    outputDefaultConfiguration
        { parseOk := fun _ => true, pair := fun _ => ("abcdef", none) }
        (Except.error "no gateways")
      = some { Deconz := { Addr := "http://127.0.0.1:8080/", APIKey := "abcdef" },
               Influxdb2 := defaultConfigSkeleton.Influxdb2 }
    ∧ ({ Deconz := { Addr := "http://127.0.0.1:8080/", APIKey := "abcdef" },
         Influxdb2 := defaultConfigSkeleton.Influxdb2 } : Configuration).Influxdb2
        = defaultConfigSkeleton.Influxdb2 :=
  ⟨rfl,
   influxdb2_section_never_modified
     { parseOk := fun _ => true, pair := fun _ => ("abcdef", none) }
     (Except.error "no gateways")
     { Deconz := { Addr := "http://127.0.0.1:8080/", APIKey := "abcdef" },
       Influxdb2 := defaultConfigSkeleton.Influxdb2 }
     rfl⟩

end Deflux
